import Mathlib

/-
Verification of the UsersTable component
(src/app/dashboard/src/components/users-table/users-table.tsx).

The component is event-wiring glue: a sort-toggle handler, a status-filter
handler, a column builder call, and a refetch effect keyed on the filters
object.  We embed the handlers as pure functions on an explicit filter
state, the emitted `onFilterChange` argument as a record of optional
fields (a field that is absent from the emitted object is `none`; a field
that is present with the JavaScript value `undefined` is `some none`),
and the refetch effect as a deterministic step relation on a component
state, following the host framework's mount/dependency-change effect
semantics.
-/

namespace UsersTable

/-- Filters record of the dashboard store, as read by the component.
`sort` and `status` are optional string fields; `none` models the
JavaScript value `undefined`. -/
structure Filters where
  sort : Option String
  status : Option String
deriving DecidableEq, Repr

/-- Argument object passed to `onFilterChange`. The outer `Option` records
whether the key is present in the emitted object literal at all; the inner
`Option` is the value (`none` = the JavaScript value `undefined`). -/
structure FilterUpdate where
  sort : Option (Option String)
  status : Option (Option String)
deriving DecidableEq, Repr

/-- Next sort descriptor computed by `handleSort` (users-table.tsx lines
24-33): if the current sort equals the target column the result is the
negated column; if it equals the negated column the result is the default
"-created_at"; otherwise it is the bare column name. -/
def nextSort (filters : Filters) (column : String) : String :=
  if filters.sort = some column then "-" ++ column
  else if filters.sort = some ("-" ++ column) then "-created_at"
  else column

/-- The `handleSort` handler (users-table.tsx lines 24-36): computes the
next sort descriptor and emits `onFilterChange({ sort: newSort })`. -/
def handleSort (filters : Filters) (column : String) : FilterUpdate :=
  { sort := some (some (nextSort filters column)), status := none }

/-- The `handleStatusFilter` handler (users-table.tsx lines 38-44):
`newValue = value === "0" ? "" : value`, then emits
`onFilterChange({ status: value.length > 0 ? newValue : undefined })`.
Note that the length guard inspects the original `value`, not `newValue`. -/
def handleStatusFilter (value : String) : FilterUpdate :=
  let newValue := if value = "0" then "" else value
  { sort := none,
    status := some (if value.length > 0 then some newValue else none) }

/-- An object reference for the filters record: the identity token of the
JavaScript object (distinct allocations have distinct tokens) together
with its structural value.  The host framework compares dependency arrays
with reference equality (Object.is), i.e. by the token alone. -/
structure FiltersRef where
  ref : Nat
  value : Filters
deriving DecidableEq, Repr

/-- Observable component state for the refetch effect
`useEffect(() => { refetchUsers() }, [filters])` (users-table.tsx lines
20-22): the dependency recorded at the last effect run (`none` before the
first render) and the number of `refetchUsers` requests issued so far. -/
structure EffectState where
  lastDeps : Option FiltersRef
  refetchCount : Nat
deriving DecidableEq, Repr

/-- State before the component's first render: no effect has run and no
refetch request has been issued. -/
def initialState : EffectState :=
  { lastDeps := none, refetchCount := 0 }

/-- One render of the component with the current filters reference,
following the host framework's effect semantics for a dependency array
`[filters]`: the effect runs after the first render, and after a
subsequent render exactly when the dependency differs by reference
(Object.is) from the one recorded at the last run.  Running the effect
issues one `refetchUsers` request. -/
def renderStep (st : EffectState) (filters : FiltersRef) : EffectState :=
  match st.lastDeps with
  | none => { lastDeps := some filters, refetchCount := st.refetchCount + 1 }
  | some d =>
      if d.ref = filters.ref then
        { lastDeps := some filters, refetchCount := st.refetchCount }
      else
        { lastDeps := some filters, refetchCount := st.refetchCount + 1 }

/-- Sort state of a single column, derived from the current sort
descriptor. -/
inductive ColumnSortState where
  | ascending
  | descending
  | unsorted
deriving DecidableEq, Repr

/-- Sort state shown on the column with the given key: ascending when the
current sort descriptor equals the key, descending when it equals the
negated key, unsorted otherwise (including when no sort is set). -/
def columnSortState (sort : Option String) (key : String) : ColumnSortState :=
  if sort = some key then .ascending
  else if sort = some ("-" ++ key) then .descending
  else .unsorted

/-- Column descriptor produced by the column builder: key, localized
header label, derived sort state, and whether the column carries the
status filter control. -/
structure ColumnDescriptor where
  key : String
  header : String
  sortState : ColumnSortState
  hasStatusFilter : Bool
deriving DecidableEq, Repr

/-- Modelled from the spec: `setupColumns` lives in the columns module
(src/app/dashboard/src/components/users-table/columns), which is not part
of the provided source.  Per the spec it is a pure function from the
translation function, the text direction, the two handlers and the
current filters to an ordered list of column descriptors, with no failure
modes.  Fallibility is made explicit with `Except`: a throw would be an
`Except.error`. -/
def setupColumns (t : String → String) (dir : Bool)
    (hSort : String → FilterUpdate) (filters : Filters)
    (hStatus : String → FilterUpdate) :
    Except String (List ColumnDescriptor) :=
  let mk : String → Bool → ColumnDescriptor := fun key filterable =>
    { key := key
      header := t key
      sortState := columnSortState filters.sort key
      hasStatusFilter := filterable }
  let _ := dir
  let _ := hSort
  let _ := hStatus
  Except.ok
    [mk "username" false, mk "status" true, mk "used_traffic" false,
     mk "expire" false]

/-- A sort descriptor string carries the negation marker exactly when its
first character is the minus sign. -/
def negated (s : String) : Bool :=
  match s.data with
  | [] => false
  | ch :: _ => ch = '-'

/-- Sort descriptor invariant from the spec's data model: either a bare
(nonempty, unprefixed) field name or such a name carrying exactly one
negation marker. -/
def wellFormedSort (s : String) : Prop :=
  (s ≠ "" ∧ negated s = false) ∨
  ∃ t, s = "-" ++ t ∧ t ≠ "" ∧ negated t = false

theorem neg_ne_self (c : String) : "-" ++ c ≠ c := by
  intro h
  have h1 : ("-" ++ c).length = c.length := congrArg String.length h
  rw [String.length_append] at h1
  have h2 : ("-" : String).length = 1 := rfl
  omega

theorem negated_neg (c : String) : negated ("-" ++ c) = true := by
  unfold negated
  rw [String.data_append]
  rfl

theorem neg_inj {a b : String} (h : "-" ++ a = "-" ++ b) : a = b := by
  have h1 : ("-" ++ a).data = ("-" ++ b).data := congrArg String.data h
  rw [String.data_append, String.data_append] at h1
  exact String.ext (List.append_cancel_left h1)

theorem length_pos_of_ne_empty {v : String} (h : v ≠ "") : 0 < v.length := by
  match v, h with
  | String.mk [], h => exact absurd rfl h
  | String.mk (a :: l), _ => simp [String.length]

/-- Shared evaluation of `handleStatusFilter` on a non-empty,
non-sentinel input: the value passes through unchanged. -/
theorem statusPassthrough (v : String) (h0 : v ≠ "") (h1 : v ≠ "0") :
    (handleStatusFilter v).status = some (some v) := by
  unfold handleStatusFilter
  have hlen : 0 < v.length := length_pos_of_ne_empty h0
  simp [h1, hlen]

/-- C1: the sort toggle handler computes the next sort by a three-case
analysis of the current sort: equal to the column gives the negated
column, equal to the negated column gives the default "-created_at", and
any other value (including undefined) gives the bare column; the handler
emits a filter update carrying exactly that sort value. -/
theorem sort_toggle_three_cases (f : Filters) (c : String) :
    (f.sort = some c →
      handleSort f c = { sort := some (some ("-" ++ c)), status := none }) ∧
    (f.sort = some ("-" ++ c) →
      handleSort f c = { sort := some (some "-created_at"), status := none }) ∧
    (f.sort ≠ some c → f.sort ≠ some ("-" ++ c) →
      handleSort f c = { sort := some (some c), status := none }) := by
  refine ⟨fun h => ?_, fun h => ?_, fun h1 h2 => ?_⟩
  · simp [handleSort, nextSort, h]
  · simp [handleSort, nextSort, h, neg_ne_self c]
  · simp [handleSort, nextSort, h1, h2]

/-- Witness for C1: the three cases evaluated at column "username", with
current sorts "username", "-username" and undefined respectively. -/
theorem sort_toggle_three_cases_witness :
    handleSort { sort := some "username", status := none } "username" =
      { sort := some (some "-username"), status := none } ∧
    handleSort { sort := some "-username", status := none } "username" =
      { sort := some (some "-created_at"), status := none } ∧
    handleSort { sort := none, status := none } "username" =
      { sort := some (some "username"), status := none } :=
  ⟨(sort_toggle_three_cases { sort := some "username", status := none }
      "username").1 rfl,
   (sort_toggle_three_cases { sort := some "-username", status := none }
      "username").2.1 (by decide),
   (sort_toggle_three_cases { sort := none, status := none }
      "username").2.2 (by decide) (by decide)⟩

/-- C2 counterexample: invoking the status filter handler with the exact
string "0" does not emit status undefined; the handler checks the length
of the original value, which is positive, so the mapped value "" is
emitted instead. -/
theorem status_sentinel_not_undefined :
    (handleStatusFilter "0").status ≠ some none := by decide

/-- C2 amended: invoking the status filter handler with the exact string
"0" emits a filter update whose status field is present and equal to the
empty string "" (the sentinel is mapped to "", not cleared to
undefined). -/
theorem status_sentinel_maps_to_empty :
    handleStatusFilter "0" = { sort := none, status := some (some "") } := by
  decide

/-- C3: the status filter handler clears the filter on the empty string
(status undefined) and passes any other non-sentinel non-empty string
through unchanged. -/
theorem status_filter_empty_and_passthrough :
    (handleStatusFilter "").status = some none ∧
    ∀ v : String, v ≠ "" → v ≠ "0" →
      (handleStatusFilter v).status = some (some v) :=
  ⟨by decide, fun v h0 h1 => statusPassthrough v h0 h1⟩

/-- Witness for C3: the pass-through case evaluated at the input "1". -/
theorem status_filter_empty_and_passthrough_witness :
    (handleStatusFilter "1").status = some (some "1") :=
  status_filter_empty_and_passthrough.2 "1" (by decide) (by decide)

/-- C4: whenever the filters object changes by reference (even to a
structurally equal value), one additional refetch request is issued by
the effect: the refetch count grows by exactly one on that render. -/
theorem refetch_on_filters_change (st : EffectState) (d r : FiltersRef)
    (hm : st.lastDeps = some d) (hne : d.ref ≠ r.ref) :
    (renderStep st r).refetchCount = st.refetchCount + 1 := by
  unfold renderStep
  rw [hm]
  simp [hne]

/-- Witness for C4: a mounted component re-rendered with a structurally
equal filters record under a fresh reference issues exactly one more
refetch request. -/
theorem refetch_on_filters_change_witness :
    (renderStep
      { lastDeps := some { ref := 0, value := { sort := none, status := none } },
        refetchCount := 1 }
      { ref := 1, value := { sort := none, status := none } }).refetchCount = 2 :=
  refetch_on_filters_change
    { lastDeps := some { ref := 0, value := { sort := none, status := none } },
      refetchCount := 1 }
    { ref := 0, value := { sort := none, status := none } }
    { ref := 1, value := { sort := none, status := none } }
    rfl (by decide)

/-- C5: on mount, with any initial filters reference (any value,
including the empty record), the effect issues exactly one refetch
request, before any further state change. -/
theorem refetch_on_mount (r : FiltersRef) :
    renderStep initialState r = { lastDeps := some r, refetchCount := 1 } := rfl

/-- C6: for every nonempty unprefixed column name and every current
filter state, the sort value emitted by the sort toggle handler is
well-formed: a bare field name or a field name carrying exactly one
negation marker. -/
theorem sort_invariant_preserved (f : Filters) (c : String)
    (hne : c ≠ "") (hbare : negated c = false) :
    (handleSort f c).sort = some (some (nextSort f c)) ∧
    wellFormedSort (nextSort f c) := by
  refine ⟨rfl, ?_⟩
  unfold nextSort
  split
  · exact Or.inr ⟨c, rfl, hne, hbare⟩
  · split
    · exact Or.inr ⟨"created_at", by decide, by decide, by decide⟩
    · exact Or.inl ⟨hne, hbare⟩

/-- Witness for C6: the invariant evaluated at column "username" with
current sort "username" (the emitted descriptor is "-username"). -/
theorem sort_invariant_preserved_witness :
    (handleSort { sort := some "username", status := none } "username").sort =
      some (some (nextSort { sort := some "username", status := none } "username")) ∧
    wellFormedSort (nextSort { sort := some "username", status := none } "username") :=
  sort_invariant_preserved { sort := some "username", status := none }
    "username" (by decide) (by decide)

/-- C7: the column builder, called with any translation function, text
direction, handlers and filters record (including one whose sort field is
undefined), never throws: it always returns an ordered column list. -/
theorem setupColumns_never_throws (t : String → String) (dir : Bool)
    (hSort : String → FilterUpdate) (f : Filters)
    (hStatus : String → FilterUpdate) :
    ∃ cols, setupColumns t dir hSort f hStatus = Except.ok cols :=
  ⟨_, rfl⟩

/-- C8: the sort value "-created_at" is a fixed point of the sort toggle
for the created_at column, while for every other (bare) column the cycle
leaves the descending state: from the negated column it resets to
"-created_at", and from "-created_at" it returns to ascending. -/
theorem created_at_descending_fixed_point :
    (∀ st : Option String,
      nextSort { sort := some "-created_at", status := st } "created_at" =
        "-created_at") ∧
    ∀ c : String, c ≠ "created_at" → negated c = false →
      ∀ st : Option String,
        nextSort { sort := some ("-" ++ c), status := st } c = "-created_at" ∧
        nextSort { sort := some "-created_at", status := st } c = c := by
  constructor
  · intro st
    rfl
  · intro c hc hbare st
    refine ⟨?_, ?_⟩
    · have h1 : some ("-" ++ c) ≠ some c := by
        intro h
        exact neg_ne_self c (Option.some.inj h)
      simp [nextSort, h1]
    · have h1 : ("-created_at" : String) ≠ c := by
        intro h
        rw [← h] at hbare
        have h3 : negated "-created_at" = true := negated_neg "created_at"
        rw [h3] at hbare
        exact Bool.noConfusion hbare
      have h2 : ("-created_at" : String) ≠ "-" ++ c := by
        intro h
        have h4 : ("-" ++ "created_at" : String) = "-" ++ c := h
        exact hc (neg_inj h4).symm
      simp [nextSort, h1, h2]

/-- Witness for C8: the fixed point at created_at, and the escape from
descending for the column "username". -/
theorem created_at_descending_fixed_point_witness :
    nextSort { sort := some "-username", status := none } "username" =
      "-created_at" ∧
    nextSort { sort := some "-created_at", status := none } "username" =
      "username" :=
  created_at_descending_fixed_point.2 "username" (by decide) (by decide) none

/-- C9: each handler updates only its own filter field: the sort toggle
handler's emitted update never contains a status key, and the status
filter handler's emitted update never contains a sort key (the update
record has no other fields). -/
theorem handlers_update_only_own_field (f : Filters) (c v : String) :
    (handleSort f c).status = none ∧ (handleStatusFilter v).sort = none :=
  ⟨rfl, rfl⟩

/-- C10: sentinel matching is exact string equality: every non-empty
input other than the one-character string "0" passes through to the
status field unchanged. -/
theorem status_sentinel_exact_match (v : String) (h0 : v ≠ "")
    (h1 : v ≠ "0") : (handleStatusFilter v).status = some (some v) :=
  statusPassthrough v h0 h1

/-- Witness for C10: near-sentinel inputs "00" and " 0" pass through
unchanged. -/
theorem status_sentinel_exact_match_witness :
    (handleStatusFilter "00").status = some (some "00") ∧
    (handleStatusFilter " 0").status = some (some " 0") :=
  ⟨status_sentinel_exact_match "00" (by decide) (by decide),
   status_sentinel_exact_match " 0" (by decide) (by decide)⟩

end UsersTable
